import Mathlib

/-!
Shallow embedding of `src/main.go` (a systray JIRA time tracker).

The Go program keeps a `JiraMenu` (map from issue key to a systray menu
item plus a `selectedKey` string), a toggle-driven `Timer`, and spawns one
goroutine per event source in `onReady`.  External collaborators (the
`jira` CLI, `mack` dialogs, the systray UI) are modelled as explicit
inputs (their results) and as an `Effect` trace (the calls the code makes
on them).  Time is modelled in nanoseconds as `Nat`, matching Go's
monotonic `time.Since` which never yields a negative duration here.
-/

namespace Tracker

/-- Fields of an issue as decoded from the tracker JSON (`Issue.Fields`). -/
structure IssueFields where
  summary : String
deriving DecidableEq, Repr

/-- An issue as decoded from the tracker JSON (`Issue` in main.go). -/
structure Issue where
  key : String
  fields : IssueFields
deriving DecidableEq, Repr

/-- The `JiraMenu` struct: `issueItems` maps an issue key to its systray
menu item (modelled by the issue the item was created from, in insertion
order), `selectedKey` is the checked issue key, `""` when none. -/
structure JiraMenu where
  issueItems : List (String × Issue)
  selectedKey : String
deriving DecidableEq, Repr

/-- Observable calls the code performs on its collaborators: alerts and
log lines, systray title updates, menu-item check marks, and the `jira`
CLI invocations (login, list, worklog add). -/
inductive Effect where
  | alert (msg : String)
  | logMsg (msg : String)
  | setTitle (title : String)
  | setMenuItemTitle (title : String)
  | uncheckItem (key : String)
  | checkItem (key : String)
  | fetchIssues
  | loginCall
  | submitWorklog (key : String) (started : Nat) (minutes : Nat) (message : Option String)
deriving DecidableEq, Repr

/-- Whether an effect is a user-visible alert dialog (`mack.Alert`). -/
def Effect.isAlert : Effect → Bool
  | .alert _ => true
  | _ => false

/-- Whether an effect is the assigned-issues fetch (`getIssues`). -/
def Effect.isFetch : Effect → Bool
  | .fetchIssues => true
  | _ => false

/-- The worklog submissions contained in an effect trace, as
(key, start timestamp, whole minutes, optional message). -/
def submittedLogs (effs : List Effect) : List (String × Nat × Nat × Option String) :=
  effs.filterMap fun e =>
    match e with
    | .submitWorklog k s m msg => some (k, s, m, msg)
    | _ => none

/-- The `JiraMenu.isItemPresent` method: key lookup in `issueItems`. -/
def isItemPresent (menu : JiraMenu) (key : String) : Bool :=
  menu.issueItems.any fun p => p.1 == key

/-- The `JiraMenu.addItem` method: no-op when the key is present,
otherwise create the menu item and record it under the issue key. -/
def addItem (menu : JiraMenu) (issue : Issue) : JiraMenu :=
  if isItemPresent menu issue.key then menu
  else { menu with issueItems := menu.issueItems ++ [(issue.key, issue)] }

/-- The `JiraMenu.check` method: clear `selectedKey`, uncheck every item,
then check the clicked item and set `selectedKey` only if the key is
present.  An unknown key therefore leaves the selection empty. -/
def check (menu : JiraMenu) (key : String) : JiraMenu × List Effect :=
  let unchecks := menu.issueItems.map fun p => Effect.uncheckItem p.1
  if isItemPresent menu key then
    ({ menu with selectedKey := key }, unchecks ++ [Effect.checkItem key])
  else
    ({ menu with selectedKey := "" }, unchecks)

/-- Results of the external `jira` calls made by `getIssues`: the login
error (if any), the list error (if any), and the JSON decoding result
(the decoded issues together with an optional unmarshal error, matching
`return listOut.Issues, err`). -/
structure FetchEnv where
  loginErr : Option String
  listErr : Option String
  unmarshal : List Issue × Option String
deriving DecidableEq, Repr

/-- The `getIssues` function: login, then list, then unmarshal; the first
two failures wrap the error and return no issues. -/
def getIssues (env : FetchEnv) : List Issue × Option String :=
  match env.loginErr with
  | some e => ([], some ("could not login: " ++ e))
  | none =>
    match env.listErr with
    | some e => ([], some ("could not list assigned issues: " ++ e))
    | none => env.unmarshal

/-- The `JiraMenu.refresh` method: fetch issues, `log.Print` the error if
one occurred, and `addItem` each returned issue.  No alert is shown. -/
def refresh (menu : JiraMenu) (env : FetchEnv) : JiraMenu × List Effect :=
  let res := getIssues env
  let logEffs :=
    match res.2 with
    | some e => [Effect.logMsg e]
    | none => []
  (res.1.foldl addItem menu, Effect.fetchIssues :: logEffs)

/-- The zero value a fresh `JiraMenu` starts from in `NewJiraMenu`. -/
def emptyMenu : JiraMenu := { issueItems := [], selectedKey := "" }

/-- The `NewJiraMenu` constructor: start empty, then run one `refresh`. -/
def NewJiraMenu (env : FetchEnv) : JiraMenu × List Effect :=
  refresh emptyMenu env

/-- Nanoseconds per minute (`time.Minute`). -/
def nsPerMinute : Nat := 60000000000

/-- Go's `Duration.Round(time.Minute)` for a non-negative duration in
nanoseconds: round to the nearest minute, half a minute away from zero. -/
def roundToMinute (d : Nat) : Nat :=
  let r := d % nsPerMinute
  if r + r < nsPerMinute then d - r else d + (nsPerMinute - r)

/-- The whole minutes reported for a duration,
`int(d.Round(time.Minute).Minutes())`. -/
def roundedMinutes (d : Nat) : Nat := roundToMinute d / nsPerMinute

/-- Go's `strings.TrimSpace`: strip leading and trailing whitespace
(written out over the character list so it evaluates by reduction). -/
def trimSpace (s : String) : String :=
  String.mk (((s.data.dropWhile Char.isWhitespace).reverse.dropWhile Char.isWhitespace).reverse)

/-- Result of a `mack.Dialog` prompt: which button was clicked and the
entered text. -/
structure DialogResp where
  clicked : String
  text : String
deriving DecidableEq, Repr

/-- The `addWorkLog` function.  Inputs mirror the collaborator calls it
makes: the dialog result, the login error (if any) and the worklog-add
error (if any).  Returns the error value `addWorkLog` returns (as
`Option String`) together with the trace of collaborator calls.  Note the
dismissed-dialog branch returns `nil` with nothing submitted, and the
under-one-minute check compares the rendered duration with the string
`"0m"` after the login call. -/
def addWorkLog (key : String) (started : Nat) (d : Nat)
    (dialogRes : Except String DialogResp) (loginErr : Option String)
    (submitErr : Option String) : Option String × List Effect :=
  match dialogRes with
  | .error e => (some ("could not ask for log messge: " ++ e), [])
  | .ok resp =>
    if resp.clicked ≠ "OK" then (none, [])
    else
      let logEff := Effect.logMsg ("Adding worklog for " ++ key ++ ", message: " ++ resp.text)
      match loginErr with
      | some e => (some ("could not login!: " ++ e), [logEff, Effect.loginCall])
      | none =>
        let durationTime := toString (roundedMinutes d) ++ "m"
        if durationTime = "0m" then
          (some "Cannot record a time log of < 1 minute", [logEff, Effect.loginCall])
        else
          let submitEff := Effect.submitWorklog key started (roundedMinutes d)
            (if trimSpace resp.text ≠ "" then some resp.text else none)
          match submitErr with
          | some e => (some ("could not add worklog: " ++ e), [logEff, Effect.loginCall, submitEff])
          | none => (none, [logEff, Effect.loginCall, submitEff])

/-- The local state of `handleTimer`: the `timerStarted` flag and the
`Timer.startTime` timestamp (nanoseconds). -/
structure TimerState where
  started : Bool
  startTime : Nat
deriving DecidableEq, Repr

/-- Result of one iteration of the `handleTimer` loop.  `handleTimer`
never writes the shared menu, so the menu is passed through unchanged. -/
structure TimerStepResult where
  state : TimerState
  menu : JiraMenu
  effects : List Effect
deriving DecidableEq, Repr

/-- One iteration of the `handleTimer` loop, handling a single click of
the timer menu item.  When running: `timer.stop()` (clears the tray
title), then `addWorkLog(menu.selectedKey, timer.startTime, d)` — note
the issue key is read from the menu at stop time — alerting on error and
resetting the item title.  When idle: alert if no selection, otherwise
start the timer at `now`. -/
def handleTimerStep (st : TimerState) (menu : JiraMenu) (now : Nat)
    (dialogRes : Except String DialogResp) (loginErr : Option String)
    (submitErr : Option String) : TimerStepResult :=
  if st.started then
    let d := now - st.startTime
    let res := addWorkLog menu.selectedKey st.startTime d dialogRes loginErr submitErr
    let alerts :=
      match res.1 with
      | some e => [Effect.alert e]
      | none => []
    { state := { started := false, startTime := st.startTime },
      menu := menu,
      effects := Effect.setTitle "" :: (res.2 ++ alerts ++ [Effect.setMenuItemTitle "Start Timer"]) }
  else if menu.selectedKey = "" then
    { state := st, menu := menu, effects := [Effect.alert "No Issue Selected"] }
  else
    { state := { started := true, startTime := now }, menu := menu,
      effects := [Effect.setMenuItemTitle "Stop Timer"] }

/-- The `addIssue` function.  Inputs mirror its collaborator calls: the
issue-key dialog result, the login error, the `jira view` error, and the
JSON decoding result.  A dialog failure or a non-OK button returns
silently; a known key alerts; a login failure returns silently (after the
login call); a view failure or a decode failure alerts; success adds the
issue. -/
def addIssue (menu : JiraMenu) (dialogRes : Except String DialogResp)
    (loginErr : Option String) (viewErr : Option String)
    (parsed : Except String Issue) : JiraMenu × List Effect :=
  match dialogRes with
  | .error _ => (menu, [])
  | .ok resp =>
    if resp.clicked ≠ "OK" then (menu, [])
    else if isItemPresent menu resp.text then (menu, [Effect.alert "Issue already there!"])
    else
      match loginErr with
      | some _ => (menu, [Effect.loginCall])
      | none =>
        match viewErr with
        | some _ => (menu, [Effect.loginCall, Effect.alert "Could not find that issue!"])
        | none =>
          match parsed with
          | .error _ =>
            (menu, [Effect.loginCall, Effect.alert "Failed to read issue info.  Are you sure it exists?"])
          | .ok issue => (addItem menu issue, [Effect.loginCall])

/-- The event sources `onReady` wires up, one channel each. -/
inductive EventSource where
  | quit
  | timerToggle
  | issueClick
  | addIssueRequest
  | refreshRequest
deriving DecidableEq, Repr

/-- The state-relevant steps of `onReady`, in program order: spawning a
consumer goroutine loop for an event source, or constructing the menu
(which performs the initial fetch). -/
inductive OnReadyStep where
  | spawnLoop (source : EventSource)
  | constructMenu
deriving DecidableEq, Repr

/-- The sequence of `onReady`: the quit goroutine, then `NewJiraMenu`,
then the `handleTimer` goroutine, the issue-click goroutine, the
add-issue goroutine and the refresh goroutine. -/
def onReadySteps : List OnReadyStep :=
  [OnReadyStep.spawnLoop EventSource.quit,
   OnReadyStep.constructMenu,
   OnReadyStep.spawnLoop EventSource.timerToggle,
   OnReadyStep.spawnLoop EventSource.issueClick,
   OnReadyStep.spawnLoop EventSource.addIssueRequest,
   OnReadyStep.spawnLoop EventSource.refreshRequest]

/-- The event-consumer loops `onReady` spawns, in spawn order. -/
def onReadyEventLoops : List EventSource :=
  onReadySteps.filterMap fun s =>
    match s with
    | .spawnLoop e => some e
    | .constructMenu => none

/-- The menu-mutating operations reachable from UI events: a successful
add (from `addIssue` or `refresh`), an issue click (`check`), and a
refresh with its collaborator results. -/
inductive MenuOp where
  | add (issue : Issue)
  | click (key : String)
  | refreshAssigned (env : FetchEnv)
deriving DecidableEq, Repr

/-- Apply one menu-mutating operation. -/
def applyOp (menu : JiraMenu) : MenuOp → JiraMenu
  | .add issue => addItem menu issue
  | .click key => (check menu key).1
  | .refreshAssigned env => (refresh menu env).1

/-- Run a sequence of menu operations from the initial empty menu. -/
def runOps (ops : List MenuOp) : JiraMenu :=
  ops.foldl applyOp emptyMenu

/-- The selection as a list of at most one key (`selectedKey` with `""`
as the empty sentinel). -/
def selectionIds (menu : JiraMenu) : List String :=
  if menu.selectedKey = "" then [] else [menu.selectedKey]

/-- The keys of the registry, in insertion order. -/
def keys (menu : JiraMenu) : List String := menu.issueItems.map Prod.fst

theorem isItemPresent_iff (menu : JiraMenu) (k : String) :
    isItemPresent menu k = true ↔ k ∈ keys menu := by
  simp [isItemPresent, keys, List.any_eq_true, List.mem_map, beq_iff_eq]

theorem keys_addItem (menu : JiraMenu) (issue : Issue) :
    keys (addItem menu issue) =
      if isItemPresent menu issue.key then keys menu else keys menu ++ [issue.key] := by
  unfold addItem
  cases hb : isItemPresent menu issue.key <;> simp [keys, hb]

theorem selectedKey_addItem (menu : JiraMenu) (issue : Issue) :
    (addItem menu issue).selectedKey = menu.selectedKey := by
  unfold addItem
  split <;> rfl

theorem selectedKey_foldl (issues : List Issue) (menu : JiraMenu) :
    (issues.foldl addItem menu).selectedKey = menu.selectedKey := by
  induction issues generalizing menu with
  | nil => rfl
  | cons i rest ih => rw [List.foldl_cons, ih, selectedKey_addItem]

theorem mem_keys_foldl (issues : List Issue) (menu : JiraMenu) (k : String) :
    k ∈ keys (issues.foldl addItem menu) ↔ k ∈ keys menu ∨ k ∈ issues.map Issue.key := by
  induction issues generalizing menu with
  | nil => simp
  | cons i rest ih =>
    rw [List.foldl_cons, ih, keys_addItem]
    by_cases hb : isItemPresent menu i.key = true
    · have hmem : i.key ∈ keys menu := (isItemPresent_iff menu i.key).mp hb
      rw [if_pos hb]
      simp only [List.map_cons, List.mem_cons]
      constructor
      · rintro (h | h)
        · exact Or.inl h
        · exact Or.inr (Or.inr h)
      · rintro (h | h | h)
        · exact Or.inl h
        · subst h
          exact Or.inl hmem
        · exact Or.inr h
    · rw [if_neg hb]
      simp only [List.mem_append, List.mem_singleton, List.map_cons, List.mem_cons]
      tauto

theorem nodup_keys_addItem (menu : JiraMenu) (issue : Issue)
    (h : (keys menu).Nodup) : (keys (addItem menu issue)).Nodup := by
  rw [keys_addItem]
  by_cases hb : isItemPresent menu issue.key = true
  · rw [if_pos hb]
    exact h
  · have hnm : issue.key ∉ keys menu := fun hm => hb ((isItemPresent_iff menu issue.key).mpr hm)
    rw [if_neg hb, List.nodup_append]
    refine ⟨h, List.nodup_singleton _, ?_⟩
    intro a ha hq
    rw [List.mem_singleton] at hq
    exact hnm (hq ▸ ha)

theorem nodup_keys_foldl (issues : List Issue) (menu : JiraMenu)
    (h : (keys menu).Nodup) : (keys (issues.foldl addItem menu)).Nodup := by
  induction issues generalizing menu with
  | nil => simpa using h
  | cons i rest ih => exact ih _ (nodup_keys_addItem _ _ h)

theorem present_addItem_mono (menu : JiraMenu) (issue : Issue) (k : String)
    (h : isItemPresent menu k = true) : isItemPresent (addItem menu issue) k = true := by
  rw [isItemPresent_iff] at h ⊢
  rw [keys_addItem]
  split
  · exact h
  · exact List.mem_append_left _ h

theorem present_foldl_mono (issues : List Issue) (menu : JiraMenu) (k : String)
    (h : isItemPresent menu k = true) :
    isItemPresent (issues.foldl addItem menu) k = true := by
  rw [isItemPresent_iff] at h ⊢
  rw [mem_keys_foldl]
  exact Or.inl h

/-- The selection invariant: empty, or a key present in the registry. -/
def selOk (menu : JiraMenu) : Prop :=
  menu.selectedKey = "" ∨ isItemPresent menu menu.selectedKey = true

theorem selOk_addItem (menu : JiraMenu) (issue : Issue) (h : selOk menu) :
    selOk (addItem menu issue) := by
  cases h with
  | inl he => exact Or.inl (by rw [selectedKey_addItem]; exact he)
  | inr hp =>
    right
    rw [selectedKey_addItem]
    exact present_addItem_mono menu issue _ hp

theorem selOk_foldl (issues : List Issue) (menu : JiraMenu) (h : selOk menu) :
    selOk (issues.foldl addItem menu) := by
  induction issues generalizing menu with
  | nil => simpa using h
  | cons i rest ih => exact ih _ (selOk_addItem _ _ h)

theorem issueItems_check (menu : JiraMenu) (k : String) :
    (check menu k).1.issueItems = menu.issueItems := by
  unfold check
  split <;> rfl

theorem selOk_check (menu : JiraMenu) (k : String) : selOk (check menu k).1 := by
  unfold check
  cases hb : isItemPresent menu k
  · simp only [hb, Bool.false_eq_true, if_neg (by simp : ¬ False)]
    exact Or.inl rfl
  · simp only [hb, if_pos rfl]
    right
    simpa [isItemPresent] using hb

theorem selOk_applyOp (menu : JiraMenu) (op : MenuOp) (h : selOk menu) :
    selOk (applyOp menu op) := by
  cases op with
  | add issue => exact selOk_addItem menu issue h
  | click key => exact selOk_check menu key
  | refreshAssigned env => exact selOk_foldl _ _ h

theorem selOk_runOps (ops : List MenuOp) : selOk (runOps ops) := by
  have h : ∀ menu, selOk menu → selOk (ops.foldl applyOp menu) := by
    induction ops with
    | nil => exact fun menu h => h
    | cons op rest ih => exact fun menu h => ih _ (selOk_applyOp menu op h)
  exact h emptyMenu (Or.inl rfl)

theorem submittedLogs_append (a b : List Effect) :
    submittedLogs (a ++ b) = submittedLogs a ++ submittedLogs b := by
  simp [submittedLogs]

theorem submittedLogs_addWorkLog (key : String) (started d : Nat)
    (dialogRes : Except String DialogResp) (loginErr submitErr : Option String) :
    ∀ e ∈ submittedLogs (addWorkLog key started d dialogRes loginErr submitErr).2,
      e.1 = key ∧ e.2.1 = started := by
  unfold addWorkLog
  cases dialogRes with
  | error e => simp [submittedLogs]
  | ok resp =>
    by_cases hc : resp.clicked = "OK"
    · simp only [hc, ne_eq, if_neg (by simp : ¬ ("OK" ≠ "OK"))]
      cases loginErr with
      | some e => simp [submittedLogs]
      | none =>
        by_cases hd : (toString (roundedMinutes d) ++ "m") = "0m"
        · simp [hd, submittedLogs]
        · simp only [if_neg hd]
          cases submitErr <;> simp [submittedLogs]
    · simp [if_pos hc, submittedLogs]

theorem handleTimerStep_submitted (st : TimerState) (menu : JiraMenu) (now : Nat)
    (dialogRes : Except String DialogResp) (loginErr submitErr : Option String)
    (h : st.started = true) :
    submittedLogs (handleTimerStep st menu now dialogRes loginErr submitErr).effects
      = submittedLogs (addWorkLog menu.selectedKey st.startTime (now - st.startTime)
          dialogRes loginErr submitErr).2 := by
  simp only [handleTimerStep, h, if_true]
  generalize addWorkLog menu.selectedKey st.startTime (now - st.startTime)
    dialogRes loginErr submitErr = p
  obtain ⟨r, effs⟩ := p
  cases r <;> simp [submittedLogs]

theorem handleTimerStep_stops (st : TimerState) (menu : JiraMenu) (now : Nat)
    (dialogRes : Except String DialogResp) (loginErr submitErr : Option String)
    (h : st.started = true) :
    (handleTimerStep st menu now dialogRes loginErr submitErr).state.started = false := by
  simp [handleTimerStep, h]

/-- A sample issue used for concrete scenarios. -/
def issueOne : Issue := { key := "PROJ-1", fields := { summary := "Fix bug" } }

/-- A second sample issue used for concrete scenarios. -/
def issueTwo : Issue := { key := "PROJ-2", fields := { summary := "Write docs" } }

/-- A menu with two registered issues where the first one is selected. -/
def menuA : JiraMenu :=
  { issueItems := [("PROJ-1", issueOne), ("PROJ-2", issueTwo)], selectedKey := "PROJ-1" }

/-- The same registry as `menuA` after the selection moved to the second
issue (as a mid-session click of the second item produces). -/
def menuB : JiraMenu :=
  { issueItems := [("PROJ-1", issueOne), ("PROJ-2", issueTwo)], selectedKey := "PROJ-2" }

/-- The timer-toggle click that starts a session while `menuA` is the
shared menu state (first issue selected). -/
def c1StartStep : TimerStepResult :=
  handleTimerStep { started := false, startTime := 0 } menuA 0
    (Except.ok { clicked := "OK", text := "" }) none none

/-- The timer-toggle click that stops that session 125 seconds later,
after the selection moved to the second issue (`menuB`). -/
def c1StopStep : TimerStepResult :=
  handleTimerStep c1StartStep.state menuB 125000000000
    (Except.ok { clicked := "OK", text := "did work" }) none none

/-- C1, counterexample: a session started while issue PROJ-1 was selected
and stopped after the selection moved to PROJ-2 submits the work log for
PROJ-2 — the selection current at stop time — not for the issue id that
was selected when the session started. -/
theorem c1_counterexample :
    menuA.selectedKey = "PROJ-1" ∧
    c1StartStep.state.started = true ∧
    submittedLogs c1StopStep.effects = [("PROJ-2", 0, 2, some "did work")] ∧
    ("PROJ-2" : String) ≠ "PROJ-1" := by decide

/-- C1, amended: stopping a running session transitions to idle and every
work-log record it submits names the issue id selected at the moment of
the stop click (`menu.selectedKey` read at stop time), with the start
timestamp captured when the session started. -/
theorem c1_amended :
    ∀ (st : TimerState) (menu : JiraMenu) (now : Nat)
      (dialogRes : Except String DialogResp) (loginErr submitErr : Option String),
      st.started = true →
      (handleTimerStep st menu now dialogRes loginErr submitErr).state.started = false ∧
      ∀ e ∈ submittedLogs (handleTimerStep st menu now dialogRes loginErr submitErr).effects,
        e.1 = menu.selectedKey ∧ e.2.1 = st.startTime := by
  intro st menu now dlg lE sE h
  refine ⟨handleTimerStep_stops st menu now dlg lE sE h, ?_⟩
  intro e he
  rw [handleTimerStep_submitted st menu now dlg lE sE h] at he
  exact submittedLogs_addWorkLog _ _ _ _ _ _ e he

/-- C1, amended, witness at a concrete stop click. -/
theorem c1_amended_witness :
    (handleTimerStep { started := true, startTime := 0 } menuA 90000000000
        (Except.ok { clicked := "OK", text := "x" }) none none).state.started = false ∧
    (("PROJ-1", (0 : Nat), (2 : Nat), some "x").1 = menuA.selectedKey ∧
      ("PROJ-1", (0 : Nat), (2 : Nat), some "x").2.1 = 0) :=
  ⟨(c1_amended { started := true, startTime := 0 } menuA 90000000000
      (Except.ok { clicked := "OK", text := "x" }) none none rfl).1,
   (c1_amended { started := true, startTime := 0 } menuA 90000000000
      (Except.ok { clicked := "OK", text := "x" }) none none rfl).2
      ("PROJ-1", 0, 2, some "x") (by decide)⟩

/-- C2, counterexample: stopping after exactly 59 seconds does not report
the too-short error — 59 seconds rounds up to 1 minute (rounding is to
the nearest minute, half away from zero) and one submit call for exactly
1 minute occurs. -/
theorem c2_counterexample :
    (addWorkLog "PROJ-1" 0 59000000000
        (Except.ok { clicked := "OK", text := "worked" }) none none).1 = none ∧
    submittedLogs (addWorkLog "PROJ-1" 0 59000000000
        (Except.ok { clicked := "OK", text := "worked" }) none none).2
      = [("PROJ-1", 0, 1, some "worked")] := by decide

/-- C2, amended: if the elapsed duration rounded to the nearest whole
minute is 0 (that is, elapsed is under 30 seconds), the stop reports the
too-short error and no work-log submit call occurs; stopping after 29
seconds yields the error, while stopping after 60 seconds submits exactly
1 minute. -/
theorem c2_amended :
    (∀ (key : String) (started d : Nat) (dialogRes : Except String DialogResp)
        (loginErr submitErr : Option String), roundedMinutes d = 0 →
        submittedLogs (addWorkLog key started d dialogRes loginErr submitErr).2 = []) ∧
    (∀ (key : String) (started d : Nat) (resp : DialogResp) (submitErr : Option String),
        resp.clicked = "OK" → roundedMinutes d = 0 →
        (addWorkLog key started d (Except.ok resp) none submitErr).1
          = some "Cannot record a time log of < 1 minute") ∧
    roundedMinutes 29000000000 = 0 ∧
    submittedLogs (addWorkLog "PROJ-1" 7 60000000000
        (Except.ok { clicked := "OK", text := "w" }) none none).2
      = [("PROJ-1", 7, 1, some "w")] := by
  refine ⟨?_, ?_, by decide, by decide⟩
  · intro key started d dlg lE sE h0
    unfold addWorkLog
    cases dlg with
    | error e => simp [submittedLogs]
    | ok resp =>
      by_cases hc : resp.clicked = "OK"
      · simp only [hc, ne_eq, if_neg (by simp : ¬ ("OK" ≠ "OK"))]
        cases lE with
        | some e => simp [submittedLogs]
        | none =>
          rw [h0]
          simp only [if_pos (show (toString (0 : Nat) ++ "m") = "0m" by decide)]
          simp [submittedLogs]
      · simp [if_pos hc, submittedLogs]
  · intro key started d resp sE hc h0
    unfold addWorkLog
    simp only [hc, ne_eq, if_neg (by simp : ¬ ("OK" ≠ "OK"))]
    rw [h0]
    simp only [if_pos (show (toString (0 : Nat) ++ "m") = "0m" by decide)]
    simp

/-- C2, amended, witness: a 29-second stop errors with no submit. -/
theorem c2_amended_witness :
    submittedLogs (addWorkLog "K" 3 29000000000
        (Except.ok { clicked := "OK", text := "m" }) none none).2 = [] ∧
    (addWorkLog "K" 3 29000000000
        (Except.ok { clicked := "OK", text := "m" }) none none).1
      = some "Cannot record a time log of < 1 minute" :=
  ⟨c2_amended.1 "K" 3 29000000000 (Except.ok { clicked := "OK", text := "m" }) none none
      (by decide),
   c2_amended.2.1 "K" 3 29000000000 { clicked := "OK", text := "m" } none rfl (by decide)⟩

/-- C3, counterexample: `onReady` does not funnel the event sources into
a single dispatch loop — the number of consumer loops it spawns is not
one. -/
theorem c3_counterexample : ¬ onReadyEventLoops.length = 1 := by decide

/-- C3, amended: `onReady` spawns five independent consumer loops, one
per event source (quit, timer toggle, issue click, add issue, refresh);
each source has exactly one dedicated loop, and handlers of distinct
sources run concurrently rather than being serialized through one
dispatch loop. -/
theorem c3_amended :
    onReadyEventLoops
      = [EventSource.quit, EventSource.timerToggle, EventSource.issueClick,
         EventSource.addIssueRequest, EventSource.refreshRequest] ∧
    onReadyEventLoops.length = 5 ∧ onReadyEventLoops.Nodup := by decide

/-- C4: a timer-toggle click in the idle state with an empty selection
changes nothing — the session stays idle, the menu (registry and
selection) is unchanged — and the only effect is the alert
"No Issue Selected". -/
theorem c4_toggle_idle_empty :
    ∀ (st : TimerState) (menu : JiraMenu) (now : Nat)
      (dialogRes : Except String DialogResp) (loginErr submitErr : Option String),
      st.started = false → menu.selectedKey = "" →
      handleTimerStep st menu now dialogRes loginErr submitErr
        = { state := st, menu := menu, effects := [Effect.alert "No Issue Selected"] } := by
  intro st menu now dlg lE sE hs hsel
  unfold handleTimerStep
  rw [if_neg (by simp [hs]), if_pos hsel]

/-- C4, witness at a concrete idle click with no selection. -/
theorem c4_toggle_idle_empty_witness :
    handleTimerStep { started := false, startTime := 0 } emptyMenu 5
        (Except.ok { clicked := "OK", text := "" }) none none
      = { state := { started := false, startTime := 0 }, menu := emptyMenu,
          effects := [Effect.alert "No Issue Selected"] } :=
  c4_toggle_idle_empty { started := false, startTime := 0 } emptyMenu 5
    (Except.ok { clicked := "OK", text := "" }) none none rfl rfl

/-- C5: `addItem` is idempotent with first-write-wins semantics — adding
a key already present is a no-op, existing entries are never overwritten,
and after any sequence of adds the number of registry entries equals the
number of distinct ids added. -/
theorem c5_registry_add :
    (∀ (menu : JiraMenu) (issue : Issue),
        isItemPresent menu issue.key = true → addItem menu issue = menu) ∧
    (∀ (menu : JiraMenu) (issue : Issue) (entry : String × Issue),
        entry ∈ menu.issueItems → entry ∈ (addItem menu issue).issueItems) ∧
    (∀ issues : List Issue,
        (issues.foldl addItem emptyMenu).issueItems.length
          = (issues.map Issue.key).toFinset.card) := by
  refine ⟨?_, ?_, ?_⟩
  · intro menu issue h
    unfold addItem
    rw [if_pos h]
  · intro menu issue entry h
    unfold addItem
    split
    · exact h
    · exact List.mem_append_left _ h
  · intro issues
    have hnd : (keys (issues.foldl addItem emptyMenu)).Nodup :=
      nodup_keys_foldl issues emptyMenu (by simp [keys, emptyMenu])
    have hlen : (issues.foldl addItem emptyMenu).issueItems.length
        = (keys (issues.foldl addItem emptyMenu)).length := by
      simp [keys]
    rw [hlen, ← List.toFinset_card_of_nodup hnd]
    congr 1
    ext k
    simp only [List.mem_toFinset]
    rw [mem_keys_foldl]
    simp [keys, emptyMenu]

/-- C5, witness: re-adding a present issue is a no-op, the first entry
survives a duplicate add, and a sequence with a repeated id yields as
many entries as distinct ids. -/
theorem c5_registry_add_witness :
    addItem menuA issueOne = menuA ∧
    ("PROJ-1", issueOne) ∈ (addItem menuA issueTwo).issueItems ∧
    (([issueOne, issueTwo, issueOne].foldl addItem emptyMenu).issueItems.length
      = ([issueOne, issueTwo, issueOne].map Issue.key).toFinset.card) :=
  ⟨c5_registry_add.1 menuA issueOne (by decide),
   c5_registry_add.2.1 menuA issueTwo ("PROJ-1", issueOne) (by decide),
   c5_registry_add.2.2 [issueOne, issueTwo, issueOne]⟩

/-- C6, counterexample: clicking an id that is not registered does not
fail with an error — `check` silently clears the selection (the only
effects are the uncheck commands; no alert and no error value exist on
this path). -/
theorem c6_counterexample :
    isItemPresent menuA "PROJ-9" = false ∧
    (check menuA "PROJ-9").1.selectedKey = "" ∧
    ((check menuA "PROJ-9").2.any Effect.isAlert) = false ∧
    (check menuA "PROJ-9").2
      = [Effect.uncheckItem "PROJ-1", Effect.uncheckItem "PROJ-2"] := by decide

/-- C6, amended: selecting an id not present in the registry never sets
the selection to that id — it clears the selection to empty, leaves the
registry unchanged, and reports no error to the user. -/
theorem c6_amended :
    ∀ (menu : JiraMenu) (k : String), isItemPresent menu k = false →
      (check menu k).1.selectedKey = "" ∧
      (check menu k).1.issueItems = menu.issueItems ∧
      ((check menu k).2.any Effect.isAlert) = false := by
  intro menu k h
  unfold check
  rw [if_neg (by simp [h])]
  refine ⟨rfl, rfl, ?_⟩
  rw [List.any_eq_false]
  intro e he
  rw [List.mem_map] at he
  obtain ⟨p, hp, hpe⟩ := he
  subst hpe
  simp [Effect.isAlert]

/-- C6, amended, witness at a concrete unregistered id. -/
theorem c6_amended_witness :
    (check menuA "PROJ-9").1.selectedKey = "" ∧
    (check menuA "PROJ-9").1.issueItems = menuA.issueItems ∧
    ((check menuA "PROJ-9").2.any Effect.isAlert) = false :=
  c6_amended menuA "PROJ-9" (by decide)

/-- C7: after any sequence of registry/selection operations from the
initial empty menu, the selection holds at most one id, and whenever it
is non-empty that id is present in the registry (the registry is
append-only, so present-when-set and present-now coincide). -/
theorem c7_selection_invariant :
    ∀ ops : List MenuOp,
      (selectionIds (runOps ops)).length ≤ 1 ∧
      ∀ k ∈ selectionIds (runOps ops), isItemPresent (runOps ops) k = true := by
  intro ops
  constructor
  · unfold selectionIds
    split
    · simp
    · simp
  · intro k hk
    have h := selOk_runOps ops
    unfold selectionIds at hk
    by_cases hsel : (runOps ops).selectedKey = ""
    · rw [if_pos hsel] at hk
      cases hk
    · rw [if_neg hsel] at hk
      rw [List.mem_singleton] at hk
      subst hk
      cases h with
      | inl he => exact absurd he hsel
      | inr hp => exact hp

/-- C7, witness on a concrete add-then-click history. -/
theorem c7_selection_invariant_witness :
    (selectionIds (runOps [MenuOp.add issueOne, MenuOp.click "PROJ-1"])).length ≤ 1 ∧
    isItemPresent (runOps [MenuOp.add issueOne, MenuOp.click "PROJ-1"]) "PROJ-1" = true :=
  ⟨(c7_selection_invariant [MenuOp.add issueOne, MenuOp.click "PROJ-1"]).1,
   (c7_selection_invariant [MenuOp.add issueOne, MenuOp.click "PROJ-1"]).2 "PROJ-1" (by decide)⟩

theorem refresh_no_alert (menu : JiraMenu) (env : FetchEnv) :
    ((refresh menu env).2.any Effect.isAlert) = false := by
  simp only [refresh]
  cases hg : (getIssues env).2 <;> simp [Effect.isAlert]

/-- C8, counterexample: a failing tracker call is not always surfaced as
a user-visible notification — a refresh whose login call fails only
writes a log line (no alert), and an add-issue whose login call fails
produces no notification at all. -/
theorem c8_counterexample :
    (refresh emptyMenu
        { loginErr := some "exit status 1", listErr := none, unmarshal := ([], none) }).2
      = [Effect.fetchIssues, Effect.logMsg "could not login: exit status 1"] ∧
    ((refresh emptyMenu
        { loginErr := some "exit status 1", listErr := none, unmarshal := ([], none) }).2.any
          Effect.isAlert) = false ∧
    (addIssue emptyMenu (Except.ok { clicked := "OK", text := "PROJ-9" })
        (some "exit status 1") none (Except.error "no output")).2 = [Effect.loginCall] ∧
    ((addIssue emptyMenu (Except.ok { clicked := "OK", text := "PROJ-9" })
        (some "exit status 1") none (Except.error "no output")).2.any Effect.isAlert)
      = false := by decide

/-- C8, amended: no collaborator failure is handled by more than a value
return — a refresh failure is only logged (never alerted), an add-issue
login failure is silently dropped, an add-issue lookup failure is alerted,
an add-issue JSON-parse failure is alerted, and a worklog failure at
timer stop is alerted. -/
theorem c8_amended :
    (∀ (menu : JiraMenu) (env : FetchEnv),
        ((refresh menu env).2.any Effect.isAlert) = false) ∧
    (∀ (menu : JiraMenu) (resp : DialogResp) (e : String) (viewErr : Option String)
        (parsed : Except String Issue), resp.clicked = "OK" →
        isItemPresent menu resp.text = false →
        addIssue menu (Except.ok resp) (some e) viewErr parsed = (menu, [Effect.loginCall])) ∧
    (∀ (menu : JiraMenu) (resp : DialogResp) (e : String) (parsed : Except String Issue),
        resp.clicked = "OK" → isItemPresent menu resp.text = false →
        addIssue menu (Except.ok resp) none (some e) parsed
          = (menu, [Effect.loginCall, Effect.alert "Could not find that issue!"])) ∧
    (∀ (menu : JiraMenu) (resp : DialogResp) (e : String),
        resp.clicked = "OK" → isItemPresent menu resp.text = false →
        addIssue menu (Except.ok resp) none none (Except.error e)
          = (menu, [Effect.loginCall,
                    Effect.alert "Failed to read issue info.  Are you sure it exists?"])) ∧
    (∀ (st : TimerState) (menu : JiraMenu) (now : Nat)
        (dialogRes : Except String DialogResp) (loginErr submitErr : Option String) (e : String),
        st.started = true →
        (addWorkLog menu.selectedKey st.startTime (now - st.startTime)
            dialogRes loginErr submitErr).1 = some e →
        Effect.alert e ∈ (handleTimerStep st menu now dialogRes loginErr submitErr).effects) := by
  refine ⟨refresh_no_alert, ?_, ?_, ?_, ?_⟩
  · intro menu resp e vE p hc hnp
    simp [addIssue, hc, hnp]
  · intro menu resp e p hc hnp
    simp [addIssue, hc, hnp]
  · intro menu resp e hc hnp
    simp [addIssue, hc, hnp]
  · intro st menu now dlg lE sE e h haw
    simp only [handleTimerStep, h, if_true]
    rw [haw]
    simp

/-- C8, amended, witness at concrete failing collaborator calls. -/
theorem c8_amended_witness :
    ((refresh emptyMenu { loginErr := none, listErr := none, unmarshal := ([], none) }).2.any
        Effect.isAlert) = false ∧
    addIssue emptyMenu (Except.ok { clicked := "OK", text := "PROJ-9" })
        (some "boom") none (Except.error "x") = (emptyMenu, [Effect.loginCall]) ∧
    addIssue emptyMenu (Except.ok { clicked := "OK", text := "PROJ-9" })
        none (some "boom") (Except.error "x")
      = (emptyMenu, [Effect.loginCall, Effect.alert "Could not find that issue!"]) ∧
    addIssue emptyMenu (Except.ok { clicked := "OK", text := "PROJ-9" })
        none none (Except.error "bad json")
      = (emptyMenu, [Effect.loginCall,
                     Effect.alert "Failed to read issue info.  Are you sure it exists?"]) ∧
    Effect.alert "could not login!: boom"
      ∈ (handleTimerStep { started := true, startTime := 0 } menuA 60000000000
          (Except.ok { clicked := "OK", text := "m" }) (some "boom") none).effects :=
  ⟨c8_amended.1 emptyMenu { loginErr := none, listErr := none, unmarshal := ([], none) },
   c8_amended.2.1 emptyMenu { clicked := "OK", text := "PROJ-9" } "boom" none
     (Except.error "x") rfl (by decide),
   c8_amended.2.2.1 emptyMenu { clicked := "OK", text := "PROJ-9" } "boom"
     (Except.error "x") rfl (by decide),
   c8_amended.2.2.2.1 emptyMenu { clicked := "OK", text := "PROJ-9" } "bad json"
     rfl (by decide),
   c8_amended.2.2.2.2 { started := true, startTime := 0 } menuA 60000000000
     (Except.ok { clicked := "OK", text := "m" }) (some "boom") none
     "could not login!: boom" rfl (by decide)⟩

/-- C9: dismissing the worklog-message dialog with any button other than
OK makes `addWorkLog` return success with no submit and no error — the
elapsed session time is silently discarded, and the timer-stop step ends
idle having only cleared the tray title and reset the item title. -/
theorem c9_dismissed_dialog :
    (∀ (key : String) (started d : Nat) (resp : DialogResp) (loginErr submitErr : Option String),
        resp.clicked ≠ "OK" →
        addWorkLog key started d (Except.ok resp) loginErr submitErr = (none, [])) ∧
    (∀ (st : TimerState) (menu : JiraMenu) (now : Nat) (resp : DialogResp)
        (loginErr submitErr : Option String),
        st.started = true → resp.clicked ≠ "OK" →
        (handleTimerStep st menu now (Except.ok resp) loginErr submitErr).state.started = false ∧
        (handleTimerStep st menu now (Except.ok resp) loginErr submitErr).effects
          = [Effect.setTitle "", Effect.setMenuItemTitle "Start Timer"]) := by
  have hbase : ∀ (key : String) (started d : Nat) (resp : DialogResp)
      (lE sE : Option String), resp.clicked ≠ "OK" →
      addWorkLog key started d (Except.ok resp) lE sE = (none, []) := by
    intro key started d resp lE sE hc
    simp [addWorkLog, if_pos hc]
  refine ⟨hbase, ?_⟩
  intro st menu now resp lE sE h hc
  refine ⟨handleTimerStep_stops st menu now (Except.ok resp) lE sE h, ?_⟩
  simp only [handleTimerStep, h, if_true]
  rw [hbase menu.selectedKey st.startTime (now - st.startTime) resp lE sE hc]
  simp [submittedLogs]

/-- C9, witness: a concrete Cancel click discards a 90-second session. -/
theorem c9_dismissed_dialog_witness :
    addWorkLog "PROJ-1" 0 90000000000
        (Except.ok { clicked := "Cancel", text := "" }) none none = (none, []) ∧
    (handleTimerStep { started := true, startTime := 0 } menuA 90000000000
        (Except.ok { clicked := "Cancel", text := "" }) none none).effects
      = [Effect.setTitle "", Effect.setMenuItemTitle "Start Timer"] :=
  ⟨c9_dismissed_dialog.1 "PROJ-1" 0 90000000000 { clicked := "Cancel", text := "" } none none
      (by decide),
   (c9_dismissed_dialog.2 { started := true, startTime := 0 } menuA 90000000000
      { clicked := "Cancel", text := "" } none none rfl (by decide)).2⟩

/-- C10, counterexample: the initial fetch does not precede every UI
event consumer — `onReady` spawns the quit consumer loop before it
constructs the menu (and quit is one of the UI event sources), so a quit
event can be processed while the startup fetch is still running. -/
theorem c10_counterexample :
    onReadySteps.indexOf (OnReadyStep.spawnLoop EventSource.quit)
        < onReadySteps.indexOf OnReadyStep.constructMenu ∧
    EventSource.quit ∈ onReadyEventLoops := by decide

/-- C10, amended: constructing the menu performs exactly one fetch of the
assigned issues; when that startup fetch fails (login or list error) the
failure is only logged, the registry starts empty and no alert is shown;
and in `onReady` the construction precedes the spawning of each of the
four action-handler loops (timer toggle, issue click, add issue,
refresh) — though not of the quit consumer, which is spawned earlier. -/
theorem c10_initial_fetch :
    (∀ (env : FetchEnv) (e : String), env.loginErr = some e →
        NewJiraMenu env
          = (emptyMenu, [Effect.fetchIssues, Effect.logMsg ("could not login: " ++ e)])) ∧
    (∀ (env : FetchEnv) (e : String), env.loginErr = none → env.listErr = some e →
        NewJiraMenu env
          = (emptyMenu,
             [Effect.fetchIssues, Effect.logMsg ("could not list assigned issues: " ++ e)])) ∧
    (∀ env : FetchEnv, ((NewJiraMenu env).2.any Effect.isAlert) = false) ∧
    (∀ env : FetchEnv, (NewJiraMenu env).2.countP Effect.isFetch = 1) ∧
    onReadySteps.indexOf OnReadyStep.constructMenu
        < onReadySteps.indexOf (OnReadyStep.spawnLoop EventSource.timerToggle) ∧
    onReadySteps.indexOf OnReadyStep.constructMenu
        < onReadySteps.indexOf (OnReadyStep.spawnLoop EventSource.issueClick) ∧
    onReadySteps.indexOf OnReadyStep.constructMenu
        < onReadySteps.indexOf (OnReadyStep.spawnLoop EventSource.addIssueRequest) ∧
    onReadySteps.indexOf OnReadyStep.constructMenu
        < onReadySteps.indexOf (OnReadyStep.spawnLoop EventSource.refreshRequest) := by
  refine ⟨?_, ?_, ?_, ?_, by decide, by decide, by decide, by decide⟩
  · intro env e h
    simp [NewJiraMenu, refresh, getIssues, h, emptyMenu]
  · intro env e h1 h2
    simp [NewJiraMenu, refresh, getIssues, h1, h2, emptyMenu]
  · intro env
    exact refresh_no_alert emptyMenu env
  · intro env
    simp only [NewJiraMenu, refresh]
    cases hg : (getIssues env).2 <;> rfl

/-- C10, witness: a failing startup login leaves an empty registry and a
single log line after the one fetch. -/
theorem c10_initial_fetch_witness :
    NewJiraMenu { loginErr := some "boom", listErr := none, unmarshal := ([], none) }
      = (emptyMenu, [Effect.fetchIssues, Effect.logMsg ("could not login: " ++ "boom")]) :=
  c10_initial_fetch.1 { loginErr := some "boom", listErr := none, unmarshal := ([], none) }
    "boom" rfl

end Tracker
